import Mathlib

/-!
Verification of the apartment-tracker synchronization and image-reference
layer. The definitions below are a shallow embedding of the TypeScript
source: the data model comes from types.ts, the availability detector and
cloud sync from supabaseSync.ts, the image reference resolver from
idbImages.ts, and the load/save/delete flows from App.tsx. Network and
IndexedDB effects are made explicit: fetch outcomes become environment
records, the IndexedDB image store becomes an association list, and the
module-level availability cache becomes explicitly threaded state.
-/

namespace ApartmentSpec

/-! ## Character-list string primitives

Executable models of the JavaScript string operations the source uses
(startsWith, includes, and removal of a leading tag via replace on a
string known to start with that tag). They are written over List Char so
that concrete witnesses evaluate inside the kernel. -/

/-- Boolean test that the first list is an initial segment of the second. -/
def prefChars : List Char → List Char → Bool
  | [], _ => true
  | _ :: _, [] => false
  | a :: as, b :: bs => a == b && prefChars as bs

/-- Boolean test that the first list occurs contiguously inside the second
(model of the JS includes check on strings). -/
def containsChars (pat : List Char) : List Char → Bool
  | [] => prefChars pat []
  | c :: rest => prefChars pat (c :: rest) || containsChars pat rest

/-- Model of the JS s.includes(pat) substring test. -/
def hasSubstr (s pat : String) : Bool := containsChars pat.data s.data

/-- Model of the JS s.startsWith(p) test. -/
def strStartsWith (s p : String) : Bool := prefChars p.data s.data

/-- Drop the first n characters of a string; used to model
s.replace(tag, two-quote empty) where s is known to start with tag, so the
JS first-occurrence replace removes exactly the leading tag. -/
def strDrop (s : String) (n : Nat) : String := String.mk (s.data.drop n)

/-! ## Data model (types.ts)

Listing record as persisted in the collection document. Numeric fields are
modeled with Nat and Int; the latitude and longitude coordinates (floats in
the source, produced by geocoding, out of scope for every claim) are kept
as opaque Option Int values. -/

/-- PropertyStatus enum from types.ts (the source values are Hebrew display
strings; the constructors carry the same cases). -/
inductive PropertyStatus where
  | NEW
  | CALLED
  | VIEWING_SCHEDULED
  | VISITED
  | REJECTED
  | FAVORITE
deriving DecidableEq, Repr

/-- Property record from types.ts. The images field is the ordered list of
image reference strings; the first element is the cover image. -/
structure Property where
  id : String
  title : String
  street : String
  city : String
  lat : Option Int
  lon : Option Int
  price : Int
  phone : String
  rooms : String
  floor : Option Int
  hasElevator : Bool
  hasBalcony : Bool
  hasParking : Bool
  hasBrokerFee : Bool
  rating : Option Nat
  ratingRotem : Option Nat
  notes : Option String
  entryDate : Option String
  reminderDate : Option String
  reminderText : Option String
  images : List String
  link : String
  status : PropertyStatus
  createdAt : Nat
deriving DecidableEq, Repr

/-! ## URL helpers (supabaseSync.ts)

The percent-encoding applied by encodeURIComponent is elided: all keys the
system mints are alphanumeric with dashes and dots, on which the encoding
is the identity. -/

/-- SUPABASE_URL constant from supabaseSync.ts. -/
def SUPABASE_URL : String := "https://axmjuqxyekfyxrjftkcr.supabase.co"

/-- BUCKET constant from supabaseSync.ts. -/
def BUCKET : String := "apartment-images"

/-- getPublicImageUrl from supabaseSync.ts: the public object-store URL for
the blob stored under images/(key). -/
def getPublicImageUrl (key : String) : String :=
  SUPABASE_URL ++ "/storage/v1/object/public/" ++ BUCKET ++ "/images/" ++ key

/-- getPublicDataUrl from supabaseSync.ts. -/
def getPublicDataUrl (path : String) : String :=
  SUPABASE_URL ++ "/storage/v1/object/public/" ++ BUCKET ++ "/" ++ path

/-- getFileImageURL from idbImages.ts: the same-origin proxy URL serving a
file-backed image. -/
def getFileImageURL (key : String) : String := "/api/images/" ++ key

/-! ## Backend availability detector (isServerAvailable, supabaseSync.ts)

The module-level cache _serverAvailable is threaded explicitly. A probe of
the status endpoint either yields a response (status code plus declared
content type) or fails (network error or timeout of the 1.5s bound). -/

/-- Outcome of the fetch of /api/supabase/status. -/
inductive ProbeOutcome where
  | response (status : Nat) (contentType : String)
  | failure
deriving DecidableEq, Repr

/-- Environment of one isServerAvailable call: the window hostname and the
probe outcome the network would deliver if the probe were issued. -/
structure DetectorEnv where
  hostname : String
  probe : ProbeOutcome
deriving DecidableEq, Repr

/-- Model of res.ok: HTTP status in the 2xx range. -/
def resOk (status : Nat) : Bool := Nat.ble 200 status && Nat.blt status 300

/-- Classification of a probe outcome, from the body of isServerAvailable:
available iff res.ok and the content-type header contains application/json;
any exception resolves to false. -/
def classifyProbe : ProbeOutcome → Bool
  | .response status ct => resOk status && hasSubstr ct "application/json"
  | .failure => false

/-- One call of isServerAvailable: given the cached value and the call
environment, returns (result, new cache, whether a network request was
issued). Mirrors supabaseSync.ts lines 89 to 110: return the cache when
set; on a github.io hostname cache and return false with no network call;
otherwise probe once and cache the classification. -/
def isServerAvailableStep (cache : Option Bool) (env : DetectorEnv) :
    Bool × Option Bool × Bool :=
  match cache with
  | some b => (b, some b, false)
  | none =>
    if hasSubstr env.hostname "github.io" then (false, some false, false)
    else
      let r := classifyProbe env.probe
      (r, some r, true)

/-- A sequence of isServerAvailable calls in one process: returns the final
cache, the list of results, and the total number of network probes issued. -/
def runDetector (cache : Option Bool) : List DetectorEnv → Option Bool × List Bool × Nat
  | [] => (cache, [], 0)
  | e :: es =>
    let s := isServerAvailableStep cache e
    let rest := runDetector s.2.1 es
    (rest.1, s.1 :: rest.2.1, (if s.2.2 then 1 else 0) + rest.2.2)

/-! ## Image reference resolver (getImageObjectURL, idbImages.ts)

The IndexedDB images object store is modeled as an association list from
key to a blob identifier; URL.createObjectURL on a stored blob is modeled
by the blobUrl format string. -/

/-- IndexedDB images store: key to blob identifier. -/
abbrev IdbStore := List (String × Nat)

/-- Model of URL.createObjectURL applied to a stored blob. -/
def blobUrl (blobId : Nat) : String := "blob:" ++ toString blobId

/-- getImageObjectURL from idbImages.ts lines 79 to 111: a cloud:// key
resolves to the public object-store URL; any other key not carrying the
idb- tag resolves (after removal of an optional file:// tag) to the proxy
URL in server mode or the public object-store URL in standalone mode; an
idb- key is looked up in IndexedDB, resolving to an object URL when the
record exists and to none when it does not. The serverAvailable argument
is the detector verdict the source obtains by awaiting isServerAvailable. -/
def getImageObjectURL (serverAvailable : Bool) (store : IdbStore) (key : String) :
    Option String :=
  if strStartsWith key "cloud://" then
    some (getPublicImageUrl (strDrop key 8))
  else
    let bareKey := if strStartsWith key "file://" then strDrop key 7 else key
    if !(strStartsWith key "idb-") then
      if serverAvailable then some (getFileImageURL bareKey)
      else some (getPublicImageUrl bareKey)
    else
      match store.lookup key with
      | some b => some (blobUrl b)
      | none => none

/-! ## Image deletion (deleteImageKey, idbImages.ts) and cascade
(deleteProperty, App.tsx lines 955 to 971)

A NetEnv records, for each backend call the deletion path can make,
whether the fetch promise rejects (network error) and whether the response
reports HTTP success. The Ok flags are deliberately unreferenced by the
delete definitions: the source discards every delete response status. -/

/-- Network environment of the deletion paths. -/
structure NetEnv where
  serverAvailable : Bool
  fileApiRejects : Bool
  fileApiOk : Bool
  proxyImageRejects : Bool
  proxyImageOk : Bool
  directDeleteRejects : Bool
  directDeleteOk : Bool
  idbTxFails : Bool
deriving DecidableEq, Repr

/-- deleteFileImage from idbImages.ts: awaits the file-API DELETE fetch and
discards the response, so only a rejected fetch produces an error. -/
def deleteFileImage (env : NetEnv) : Except Unit Unit :=
  if env.fileApiRejects then .error () else .ok ()

/-- deleteImageFromCloud from supabaseSync.ts: in server mode it awaits the
proxy DELETE fetch (response discarded, rejection propagates); in
standalone mode directDelete wraps its fetch in try/catch and returns a
boolean that the caller discards, so no failure escapes. -/
def deleteImageFromCloud (env : NetEnv) : Except Unit Unit :=
  if env.serverAvailable then
    if env.proxyImageRejects then .error () else .ok ()
  else .ok ()

/-- deleteImageKey from idbImages.ts lines 113 to 137: dispatch on the
reference variant. For a bare key the cloud deletion runs detached with
its rejection swallowed by a catch, so only the awaited file-API deletion
can fail; for an idb- key the IndexedDB transaction can reject. -/
def deleteImageKey (env : NetEnv) (key : String) : Except Unit Unit :=
  if strStartsWith key "cloud://" then deleteImageFromCloud env
  else if strStartsWith key "file://" then deleteFileImage env
  else if !(strStartsWith key "idb-") then deleteFileImage env
  else if env.idbTxFails then .error () else .ok ()

/-- A reference is non-inline when it carries neither the data: nor the
blob: tag (the filter in deleteProperty and handleFinalSave). -/
def nonInlineRef (img : String) : Bool :=
  !(strStartsWith img "data:") && !(strStartsWith img "blob:")

/-- Key passed to deleteImageKey: an idb:// tag is removed first
(App.tsx line 965). -/
def cleanDeleteKey (img : String) : String :=
  if strStartsWith img "idb://" then strDrop img 6 else img

/-- The image-cleanup loop of deleteProperty: every non-inline reference
gets exactly one deleteImageKey call inside its own try/catch. Returns the
keys passed to deleteImageKey, in order, together with the number of
deletion errors that were caught and logged. -/
def cleanupDeletes (env : NetEnv) : List String → List String × Nat
  | [] => ([], 0)
  | img :: rest =>
    let tail := cleanupDeletes env rest
    if nonInlineRef img then
      let k := cleanDeleteKey img
      match deleteImageKey env k with
      | .ok _ => (k :: tail.1, tail.2)
      | .error _ => (k :: tail.1, tail.2 + 1)
    else tail

/-- deleteProperty from App.tsx lines 955 to 971: remove the listing from
the collection (the removed collection is handed to saveProperties before
the asynchronous image cleanup runs), then issue the cascade of image
deletions for the deleted listing. Returns the new collection, the keys
passed to deleteImageKey, and the number of caught deletion errors. -/
def deleteProperty (env : NetEnv) (props : List Property) (id : String) :
    List Property × List String × Nat :=
  let prop := props.find? (fun p => p.id == id)
  let updated := props.filter (fun p => !(p.id == id))
  match prop with
  | some p => (updated, cleanupDeletes env p.images)
  | none => (updated, [], 0)

/-! ## Document sync engine: load (App.tsx lines 465 to 520)

loadApartmentsFromCloud performs a cache-busting fetch (cache no-store) of
the public document URL and yields the parsed array only when the response
is ok and the payload is a JSON array; every other outcome yields null.
Its outcome is modeled as Option (List Property), and the parsed local
cache likewise. -/

/-- Source selection of the load effect: adopt the cloud document when it
is present and non-empty, otherwise the parsed local cache, otherwise the
empty collection. -/
def chosenData (cloud localCache : Option (List Property)) : List Property :=
  match cloud with
  | some a => if a.length > 0 then a else localCache.getD []
  | none => localCache.getD []

/-- Legacy-title migration inside the load effect: the placeholder title is
rewritten to the empty string. -/
def migrateTitle (p : Property) : Property :=
  if p.title == "דירה חדשה" then { p with title := "" } else p

/-- Keep decision of the reconciliation pass for one reference: a
reference carrying the idb:// tag is kept iff the stripped key still
resolves; every other reference is kept. -/
def keepRef (serverAvailable : Bool) (store : IdbStore) (img : String) : Bool :=
  if strStartsWith img "idb://" then
    (getImageObjectURL serverAvailable store (strDrop img 6)).isSome
  else true

/-- Reconciliation pass on one listing: filter the image references with
keepRef, preserving order. -/
def cleanImages (serverAvailable : Bool) (store : IdbStore) (p : Property) : Property :=
  { p with images := p.images.filter (keepRef serverAvailable store) }

/-- Result of the load effect: the collection handed to the application,
the mirrored local cache, and how many remote re-saves the cleanup
triggered. -/
structure LoadResult where
  collection : List Property
  localAfter : List Property
  cloudResaves : Nat
deriving DecidableEq, Repr

/-- The load effect of App.tsx lines 465 to 520: select the source of
truth, run the title migration and the broken-reference reconciliation
pass, mirror the resulting collection into local cache, and issue exactly
one remote re-save when anything changed. -/
def loadStep (serverAvailable : Bool) (store : IdbStore)
    (cloud localCache : Option (List Property)) : LoadResult :=
  let data0 := chosenData cloud localCache
  let titleChanged := data0.any (fun p => p.title == "דירה חדשה")
  let data1 := data0.map migrateTitle
  let imgChanged := data1.any (fun p => p.images.any (fun img =>
    strStartsWith img "idb://" &&
      (getImageObjectURL serverAvailable store (strDrop img 6)).isNone))
  let data2 := data1.map (cleanImages serverAvailable store)
  { collection := data2
    localAfter := data2
    cloudResaves := if titleChanged || imgChanged then 1 else 0 }

/-! ## Document sync engine: save (saveProperties, App.tsx lines 607 to 631)

The persistent state is the pair of the remote document and the parsed
local cache. The secondary keyvalue sync channel is fire-and-forget and
outside every claim, so it is not modeled. -/

/-- Remote document plus local cache. -/
structure SyncState where
  remote : Option (List Property)
  localCache : Option (List Property)
deriving DecidableEq, Repr

/-- Environment of one saveProperties call: whether the first local write
throws (quota), whether the degraded fallback write also throws, and
whether the remote write succeeds. -/
structure SaveEnv where
  quotaFails : Bool
  fallbackQuotaFails : Bool
  cloudOk : Bool
deriving DecidableEq, Repr

/-- Observable write attempts of one saveProperties call, in order. -/
inductive SaveEvent where
  | localWrite (data : List Property)
  | localFallbackWrite (data : List Property)
  | remoteWrite (data : List Property)
deriving DecidableEq, Repr

/-- Quota fallback of saveProperties: drop the image reference list, keep
every other field. -/
def dropImages (p : Property) : Property := { p with images := [] }

/-- saveProperties from App.tsx lines 607 to 631: attempt the local write
first (on quota failure attempt the degraded fallback, both inside
try/catch), then issue the remote write; the returned boolean is the
remote outcome. Returns the new state, the ordered write attempts, and the
remote outcome. -/
def savePropertiesRun (env : SaveEnv) (st : SyncState) (newProps : List Property) :
    SyncState × List SaveEvent × Bool :=
  let localEvents :=
    if env.quotaFails then
      [SaveEvent.localWrite newProps,
       SaveEvent.localFallbackWrite (newProps.map dropImages)]
    else [SaveEvent.localWrite newProps]
  let newLocal : Option (List Property) :=
    if env.quotaFails then
      if env.fallbackQuotaFails then st.localCache
      else some (newProps.map dropImages)
    else some newProps
  let newRemote := if env.cloudOk then some newProps else st.remote
  (⟨newRemote, newLocal⟩, localEvents ++ [SaveEvent.remoteWrite newProps], env.cloudOk)

/-- The load effect acting on the persistent state: the collection is
mirrored into local cache, and a triggered re-save rewrites the remote
document with the cleaned collection. -/
def loadRun (serverAvailable : Bool) (store : IdbStore) (st : SyncState) :
    List Property × SyncState :=
  let r := loadStep serverAvailable store st.remote st.localCache
  (r.collection,
   ⟨if r.cloudResaves > 0 then some r.collection else st.remote, some r.localAfter⟩)

/-- The round-trip scenario of the spec: load, save the collection C with
the remote store reachable (and local quota fine), load again, and return
the collection the second load adopts. -/
def roundTrip (serverAvailable : Bool) (store : IdbStore) (st0 : SyncState)
    (C : List Property) : List Property :=
  let st1 := (loadRun serverAvailable store st0).2
  let st2 := (savePropertiesRun ⟨false, false, true⟩ st1 C).1
  (loadRun serverAvailable store st2).1

/-! ## Creation of a new listing (handleFinalSave, App.tsx lines 821 to 835) -/

/-- Step 4 of handleFinalSave: with an editing id the record replaces the
matching listing in place; with no editing id the new record is prepended
to the snapshot of the current collection. -/
def computeUpdatedProps (editingId : Option String) (newProp : Property)
    (current : List Property) : List Property :=
  match editingId with
  | some eid => current.map (fun p => if p.id == eid then newProp else p)
  | none => newProp :: current

/-! ## Helper lemmas -/

/-- A map whose function fixes every member is the identity. -/
lemma map_self_of_mem {α : Type} {l : List α} {f : α → α}
    (h : ∀ x ∈ l, f x = x) : l.map f = l := by
  induction l with
  | nil => rfl
  | cons a t ih =>
    simp only [List.map_cons]
    rw [h a (by simp), ih (fun x hx => h x (by simp [hx]))]

/-- Shape of a list extending a one-element head of a character pattern. -/
lemma prefChars_cons {a : Char} {as bs : List Char}
    (h : prefChars (a :: as) bs = true) : ∃ t, bs = a :: t ∧ prefChars as t = true := by
  cases bs with
  | nil => simp [prefChars] at h
  | cons b t =>
    simp only [prefChars, Bool.and_eq_true, beq_iff_eq] at h
    exact ⟨t, by rw [h.1], h.2⟩

/-- A key carrying the idb- tag cannot carry the cloud:// tag. -/
lemma startsWith_idb_not_cloud (key : String) (h : strStartsWith key "idb-" = true) :
    strStartsWith key "cloud://" = false := by
  have hd : ("idb-" : String).data = ['i', 'd', 'b', '-'] := rfl
  have hc : ("cloud://" : String).data = ['c', 'l', 'o', 'u', 'd', ':', '/', '/'] := rfl
  unfold strStartsWith at h ⊢
  rw [hd] at h
  rw [hc]
  obtain ⟨t, ht, -⟩ := prefChars_cons h
  rw [ht]
  simp only [prefChars]
  have hne : ('c' == 'i') = false := by decide
  simp [hne]

/-- On an idb- key the resolver is the IndexedDB lookup. -/
lemma getImageObjectURL_idb (sv : Bool) (store : IdbStore) (key : String)
    (h : strStartsWith key "idb-" = true) :
    getImageObjectURL sv store key = (store.lookup key).map blobUrl := by
  unfold getImageObjectURL
  rw [startsWith_idb_not_cloud key h]
  simp only [Bool.false_eq_true, if_false, h, Bool.not_true]
  cases store.lookup key <;> simp

/-- The cache produced by a detector call always holds the returned value. -/
lemma isServerAvailableStep_cache (c : Option Bool) (e : DetectorEnv) :
    (isServerAvailableStep c e).2.1 = some (isServerAvailableStep c e).1 := by
  cases c with
  | some b => rfl
  | none =>
    simp only [isServerAvailableStep]
    split <;> rfl

/-- From a filled cache every call returns the cache and never probes. -/
lemma runDetector_some (b : Bool) (es : List DetectorEnv) :
    runDetector (some b) es = (some b, List.replicate es.length b, 0) := by
  induction es with
  | nil => rfl
  | cons e es ih =>
    simp [runDetector, isServerAvailableStep, ih, List.replicate]

/-- The cleanup loop attempts exactly one keyed deletion per non-inline
reference, in order, whatever the network does. -/
lemma cleanupDeletes_keys (env : NetEnv) (imgs : List String) :
    (cleanupDeletes env imgs).1 = (imgs.filter nonInlineRef).map cleanDeleteKey := by
  induction imgs with
  | nil => rfl
  | cons img rest ih =>
    by_cases h : nonInlineRef img = true
    · cases hdel : deleteImageKey env (cleanDeleteKey img) with
      | ok u => simp [cleanupDeletes, h, hdel, ih, List.filter_cons]
      | error u => simp [cleanupDeletes, h, hdel, ih, List.filter_cons]
    · simp [cleanupDeletes, h, ih, List.filter_cons]

/-! ## Fixtures for concrete witnesses -/

/-- A sample listing with one reference of every storage backend plus one
inline payload. -/
def sampleProp : Property :=
  { id := "1", title := "t", street := "s", city := "c", lat := none, lon := none,
    price := 100, phone := "050", rooms := "3.5", floor := some 2,
    hasElevator := true, hasBalcony := false, hasParking := false, hasBrokerFee := false,
    rating := some 7, ratingRotem := none, notes := some "n", entryDate := none,
    reminderDate := none, reminderText := none,
    images := ["cloud://a.png", "file://b.png", "c.png", "idb-zz",
               "data:image/png;base64,AAAA"],
    link := "", status := .NEW, createdAt := 1 }

/-- A listing whose state is untouched by every load-time migration. -/
def goodProp : Property :=
  { id := "2", title := "nice", street := "s", city := "c", lat := none, lon := none,
    price := 5000, phone := "", rooms := "4", floor := none,
    hasElevator := false, hasBalcony := true, hasParking := false, hasBrokerFee := false,
    rating := none, ratingRotem := none, notes := none, entryDate := none,
    reminderDate := none, reminderText := none,
    images := ["k1.png", "cloud://k2.png"],
    link := "", status := .FAVORITE, createdAt := 2 }

/-- A listing carrying the legacy placeholder title that load migrates. -/
def badTitleProp : Property :=
  { id := "3", title := "דירה חדשה", street := "", city := "", lat := none, lon := none,
    price := 0, phone := "", rooms := "", floor := none,
    hasElevator := false, hasBalcony := false, hasParking := false, hasBrokerFee := false,
    rating := none, ratingRotem := none, notes := none, entryDate := none,
    reminderDate := none, reminderText := none,
    images := [], link := "", status := .NEW, createdAt := 3 }

/-- A listing holding one broken and one live browser-local reference
around a durable one. -/
def brokenIdbProp : Property :=
  { id := "4", title := "x", street := "", city := "", lat := none, lon := none,
    price := 0, phone := "", rooms := "", floor := none,
    hasElevator := false, hasBalcony := false, hasParking := false, hasBrokerFee := false,
    rating := none, ratingRotem := none, notes := none, entryDate := none,
    reminderDate := none, reminderText := none,
    images := ["idb://idb-gone", "k1.png", "idb://idb-live"],
    link := "", status := .NEW, createdAt := 4 }

/-! ## Claims -/

/-- C10: creating a new listing (no editing id) prepends the new record:
the resulting collection is the new record followed by the previous
collection, every pre-existing listing unchanged and shifted by one
position. -/
theorem new_listing_prepended (newProp : Property) (current : List Property) :
    computeUpdatedProps none newProp current = newProp :: current ∧
    (computeUpdatedProps none newProp current).length = current.length + 1 ∧
    ∀ i : Nat, (computeUpdatedProps none newProp current)[i + 1]? = current[i]? := by
  refine ⟨rfl, by simp [computeUpdatedProps], fun i => ?_⟩
  simp [computeUpdatedProps]

/-- C3: the availability detector classifies HTTP 200 with text/html as
unavailable and HTTP 200 with application/json (off static hosting) as
available, and a true verdict always requires a JSON content type: success
status alone is never sufficient. -/
theorem status_probe_content_type :
    (∀ host : String,
        (isServerAvailableStep none ⟨host, .response 200 "text/html"⟩).1 = false)
    ∧ (∀ host : String, hasSubstr host "github.io" = false →
        (isServerAvailableStep none ⟨host, .response 200 "application/json"⟩).1 = true)
    ∧ (∀ (host : String) (status : Nat) (ct : String),
        (isServerAvailableStep none ⟨host, .response status ct⟩).1 = true →
        hasSubstr ct "application/json" = true) := by
  refine ⟨fun host => ?_, fun host h => ?_, fun host status ct h => ?_⟩
  · simp only [isServerAvailableStep]
    split
    · rfl
    · decide
  · simp [isServerAvailableStep, h]
    decide
  · by_cases hg : hasSubstr host "github.io" = true
    · simp [isServerAvailableStep, hg] at h
    · simp only [isServerAvailableStep, hg, Bool.false_eq_true, if_false] at h
      simp only [classifyProbe, Bool.and_eq_true] at h
      exact h.2

/-- C3 witness at a concrete host. -/
theorem status_probe_content_type_witness :
    hasSubstr "localhost" "github.io" = false ∧
    (isServerAvailableStep none ⟨"localhost", .response 200 "application/json"⟩).1 = true ∧
    (isServerAvailableStep none ⟨"localhost", .response 200 "text/html"⟩).1 = false :=
  ⟨by decide, status_probe_content_type.2.1 "localhost" (by decide),
    status_probe_content_type.1 "localhost"⟩

/-- C9: the detector is memoized for the process lifetime: over any
sequence of calls starting from an empty cache at most one probe is ever
issued; a call that finds the cache filled returns the cached boolean with
no network request; every call after the first returns the first call
verdict; and on a github.io hostname the verdict is false with no network
call. -/
theorem availability_memoized :
    (∀ envs : List DetectorEnv, (runDetector none envs).2.2 ≤ 1)
    ∧ (∀ (b : Bool) (e : DetectorEnv),
        isServerAvailableStep (some b) e = (b, some b, false))
    ∧ (∀ (e : DetectorEnv) (envs : List DetectorEnv),
        ∀ r ∈ (runDetector (isServerAvailableStep none e).2.1 envs).2.1,
          r = (isServerAvailableStep none e).1)
    ∧ (∀ e : DetectorEnv, hasSubstr e.hostname "github.io" = true →
        isServerAvailableStep none e = (false, some false, false)) := by
  refine ⟨fun envs => ?_, fun b e => rfl, fun e envs r hr => ?_, fun e h => ?_⟩
  · cases envs with
    | nil => simp [runDetector]
    | cons e es =>
      have hc := isServerAvailableStep_cache none e
      simp only [runDetector]
      rw [hc, runDetector_some]
      split <;> simp
  · rw [isServerAvailableStep_cache none e, runDetector_some] at hr
    simp only [List.mem_replicate] at hr
    exact hr.2
  · simp [isServerAvailableStep, h]

/-- C9 witness: a concrete two-call session issues at most one probe, and a
github.io host yields false without any probe even when the (never issued)
probe would have answered with JSON. -/
theorem availability_memoized_witness :
    (runDetector none [⟨"localhost", .response 200 "application/json"⟩,
        ⟨"localhost", .failure⟩]).2.2 ≤ 1 ∧
    hasSubstr "dov85.github.io" "github.io" = true ∧
    isServerAvailableStep none ⟨"dov85.github.io", .response 200 "application/json"⟩ =
      (false, some false, false) :=
  ⟨availability_memoized.1 _, by decide,
    availability_memoized.2.2.2 ⟨"dov85.github.io", .response 200 "application/json"⟩
      (by decide)⟩

/-- C6: deleting a listing whose images hold N non-inline references
(neither data: nor blob: tagged) issues exactly N keyed image delete
calls, one per reference and in order, whatever backend each reference
belongs to. -/
theorem cascade_deletion (env : NetEnv) (props : List Property) (id : String)
    (p : Property) (hfind : props.find? (fun q => q.id == id) = some p) :
    (deleteProperty env props id).2.1 =
      (p.images.filter nonInlineRef).map cleanDeleteKey ∧
    (deleteProperty env props id).2.1.length =
      (p.images.filter nonInlineRef).length := by
  have hk := cleanupDeletes_keys env p.images
  simp only [deleteProperty, hfind]
  exact ⟨hk, by rw [hk]; simp⟩

/-- C6 witness: deleting the sample listing attempts exactly its four
non-inline references in order and skips the inline payload. -/
theorem cascade_deletion_witness :
    ([sampleProp].find? (fun q => q.id == "1") = some sampleProp) ∧
    (deleteProperty ⟨true, false, true, false, true, false, true, false⟩
        [sampleProp] "1").2.1 =
      ["cloud://a.png", "file://b.png", "c.png", "idb-zz"] :=
  ⟨by decide,
    by
      rw [(cascade_deletion ⟨true, false, true, false, true, false, true, false⟩
        [sampleProp] "1" sampleProp (by decide)).1]
      decide⟩

/-- C7 counterexample: a network-level rejection of the file-API deletion
propagates out of deleteImageKey for a file:// reference, so deletion
failure is not always swallowed inside the call. -/
theorem deletion_error_propagates :
    deleteImageKey ⟨true, true, true, false, true, false, true, false⟩ "file://a.png" =
      Except.error () := rfl

/-- C7 amended: image deletion never fails the surrounding document save.
A non-success HTTP response never produces an error for any variant (only
network-level rejections can); the collection handed to the save is
unaffected by deletion failures; and every deletion is still attempted
whatever the network does. -/
theorem deletion_best_effort :
    (∀ (env : NetEnv) (key : String),
        env.fileApiRejects = false → env.proxyImageRejects = false →
        env.idbTxFails = false → deleteImageKey env key = Except.ok ())
    ∧ (∀ (env : NetEnv) (props : List Property) (id : String),
        (deleteProperty env props id).1 = props.filter (fun p => !(p.id == id)))
    ∧ (∀ (env env2 : NetEnv) (props : List Property) (id : String),
        (deleteProperty env props id).2.1 = (deleteProperty env2 props id).2.1) := by
  refine ⟨fun env key h1 h2 h3 => ?_, fun env props id => ?_, fun env env2 props id => ?_⟩
  · simp only [deleteImageKey, deleteImageFromCloud, deleteFileImage, h1, h2, h3,
      Bool.false_eq_true, if_false]
    split <;> simp
  · cases hfind : props.find? (fun q => q.id == id) <;> simp [deleteProperty, hfind]
  · cases hfind : props.find? (fun q => q.id == id) <;>
      simp [deleteProperty, hfind, cleanupDeletes_keys]

/-- C7 amended witness: in standalone mode a rejected direct cloud delete
is still swallowed (the response flags may report failure as well). -/
theorem deletion_best_effort_witness :
    deleteImageKey ⟨false, false, false, false, false, true, false, false⟩ "cloud://x" =
      Except.ok () :=
  deletion_best_effort.1 ⟨false, false, false, false, false, true, false, false⟩
    "cloud://x" rfl rfl rfl

/-- C8: within every save the local write is attempted before the remote
write is issued; a quota failure degrades the local record to a copy that
drops only the image lists, keeping every other field; and the remote
write and its reported outcome are untouched by local failure. -/
theorem save_local_first :
    (∀ (env : SaveEnv) (st : SyncState) (props : List Property),
        (savePropertiesRun env st props).2.1 =
          (if env.quotaFails then
            [SaveEvent.localWrite props,
             SaveEvent.localFallbackWrite (props.map dropImages)]
           else [SaveEvent.localWrite props]) ++ [SaveEvent.remoteWrite props])
    ∧ (∀ (env : SaveEnv) (st : SyncState) (props : List Property),
        env.quotaFails = true → env.fallbackQuotaFails = false →
        (savePropertiesRun env st props).1.localCache = some (props.map dropImages))
    ∧ (∀ p : Property,
        (dropImages p).images = [] ∧ (dropImages p).id = p.id ∧
        (dropImages p).title = p.title ∧ (dropImages p).street = p.street ∧
        (dropImages p).city = p.city ∧ (dropImages p).lat = p.lat ∧
        (dropImages p).lon = p.lon ∧ (dropImages p).price = p.price ∧
        (dropImages p).phone = p.phone ∧ (dropImages p).rooms = p.rooms ∧
        (dropImages p).floor = p.floor ∧ (dropImages p).hasElevator = p.hasElevator ∧
        (dropImages p).hasBalcony = p.hasBalcony ∧
        (dropImages p).hasParking = p.hasParking ∧
        (dropImages p).hasBrokerFee = p.hasBrokerFee ∧
        (dropImages p).rating = p.rating ∧ (dropImages p).ratingRotem = p.ratingRotem ∧
        (dropImages p).notes = p.notes ∧ (dropImages p).entryDate = p.entryDate ∧
        (dropImages p).reminderDate = p.reminderDate ∧
        (dropImages p).reminderText = p.reminderText ∧ (dropImages p).link = p.link ∧
        (dropImages p).status = p.status ∧ (dropImages p).createdAt = p.createdAt)
    ∧ (∀ (env : SaveEnv) (st : SyncState) (props : List Property),
        (savePropertiesRun env st props).2.2 = env.cloudOk ∧
        (savePropertiesRun env st props).1.remote =
          (if env.cloudOk then some props else st.remote)) := by
  refine ⟨fun env st props => ?_, fun env st props h1 h2 => ?_,
    fun p => ?_, fun env st props => ⟨rfl, rfl⟩⟩
  · rfl
  · simp [savePropertiesRun, h1, h2]
  · simp [dropImages]

/-- C8 witness: a quota-failed save of the sample collection still issues
the remote write last, and the degraded local record keeps everything but
the image lists. -/
theorem save_local_first_witness :
    (savePropertiesRun ⟨true, false, true⟩ ⟨none, none⟩ [sampleProp]).1.localCache =
      some [dropImages sampleProp] ∧
    (savePropertiesRun ⟨true, false, true⟩ ⟨none, none⟩ [sampleProp]).2.1 =
      [SaveEvent.localWrite [sampleProp],
       SaveEvent.localFallbackWrite [dropImages sampleProp],
       SaveEvent.remoteWrite [sampleProp]] :=
  ⟨save_local_first.2.1 ⟨true, false, true⟩ ⟨none, none⟩ [sampleProp] rfl rfl,
    by rw [save_local_first.1]; rfl⟩

/-- C4: image reference resolution is complete and variant-local. A
cloud:// key resolves to the public object-store URL; a bare or file://
key resolves to a non-null URL computed from a format string alone (the
proxy URL in server mode, the public object-store URL in standalone mode)
with no IndexedDB access; an idb- key resolves identically in both modes
(no network) and yields null exactly when no IndexedDB record with that
key exists. -/
theorem image_resolution_complete :
    (∀ (sv : Bool) (store : IdbStore) (key : String),
        strStartsWith key "cloud://" = true →
        getImageObjectURL sv store key = some (getPublicImageUrl (strDrop key 8)))
    ∧ (∀ (sv : Bool) (store : IdbStore) (key : String),
        strStartsWith key "cloud://" = false → strStartsWith key "idb-" = false →
        getImageObjectURL sv store key =
          (if sv then
            some (getFileImageURL (if strStartsWith key "file://" then strDrop key 7 else key))
           else
            some (getPublicImageUrl (if strStartsWith key "file://" then strDrop key 7 else key))))
    ∧ (∀ (sv sv2 : Bool) (store : IdbStore) (key : String),
        strStartsWith key "idb-" = true →
        getImageObjectURL sv store key = getImageObjectURL sv2 store key ∧
        (getImageObjectURL sv store key = none ↔ store.lookup key = none)) := by
  refine ⟨fun sv store key h => ?_, fun sv store key h1 h2 => ?_,
    fun sv sv2 store key h => ?_⟩
  · simp [getImageObjectURL, h]
  · cases sv <;> simp [getImageObjectURL, h1, h2]
  · rw [getImageObjectURL_idb sv store key h, getImageObjectURL_idb sv2 store key h]
    simp [Option.map_eq_none']

/-- C4 witness: one concrete resolution per variant, plus the null result
for a missing browser-local record. -/
theorem image_resolution_complete_witness :
    getImageObjectURL true [] "cloud://k" = some (getPublicImageUrl "k") ∧
    getImageObjectURL true [] "file://k" = some (getFileImageURL "k") ∧
    getImageObjectURL false [] "k.png" = some (getPublicImageUrl "k.png") ∧
    getImageObjectURL true [("idb-x", 5)] "idb-x" =
      getImageObjectURL false [("idb-x", 5)] "idb-x" ∧
    getImageObjectURL true [("idb-x", 5)] "idb-x" = some (blobUrl 5) ∧
    getImageObjectURL true [("idb-x", 5)] "idb-gone" = none := by
  refine ⟨?_, ?_, ?_, ?_, by decide, by decide⟩
  · rw [image_resolution_complete.1 true [] "cloud://k" (by decide)]; decide
  · rw [image_resolution_complete.2.1 true [] "file://k" (by decide) (by decide)]; decide
  · rw [image_resolution_complete.2.1 false [] "k.png" (by decide) (by decide)]; decide
  · exact (image_resolution_complete.2.2 true false [("idb-x", 5)] "idb-x" (by decide)).1

/-- Pointwise-equal functions map a list identically. -/
lemma map_congr_mem {α β : Type} {l : List α} {f g : α → β}
    (h : ∀ x ∈ l, f x = g x) : l.map f = l.map g := by
  induction l with
  | nil => rfl
  | cons a t ih =>
    simp only [List.map_cons]
    rw [h a (by simp), ih (fun x hx => h x (by simp [hx]))]

/-- The collection a load returns is the chosen source after the title
migration and the reconciliation pass. -/
lemma loadStep_collection (sv : Bool) (store : IdbStore)
    (cloud lc : Option (List Property)) :
    (loadStep sv store cloud lc).collection =
      ((chosenData cloud lc).map migrateTitle).map (cleanImages sv store) := rfl

/-- The mirrored local cache equals the returned collection. -/
lemma loadStep_localAfter (sv : Bool) (store : IdbStore)
    (cloud lc : Option (List Property)) :
    (loadStep sv store cloud lc).localAfter = (loadStep sv store cloud lc).collection := rfl

/-- Number of cleanup re-saves a load issues, unfolded. -/
lemma loadStep_resaves (sv : Bool) (store : IdbStore)
    (cloud lc : Option (List Property)) :
    (loadStep sv store cloud lc).cloudResaves =
      (if (chosenData cloud lc).any (fun p => p.title == "דירה חדשה") ||
          ((chosenData cloud lc).map migrateTitle).any (fun p => p.images.any (fun img =>
            strStartsWith img "idb://" &&
              (getImageObjectURL sv store (strDrop img 6)).isNone))
       then 1 else 0) := rfl

/-- A title off the legacy placeholder is fixed by the migration. -/
lemma migrateTitle_eq_self {p : Property} (h : ¬ p.title = "דירה חדשה") :
    migrateTitle p = p := by
  simp [migrateTitle, h]

/-- C1: on every load the engine adopts the remote document when the
cache-busting fetch yields a non-empty array (mirroring it into local
cache), otherwise falls back to the parsed local cache, and starts empty
when neither source yields data. The reconciliation and title-migration
pass (specified separately, cf. the self-healing claim) is assumed inert
on the adopted data. -/
theorem load_source_of_truth :
    (∀ (sv : Bool) (store : IdbStore) (a : List Property)
        (localCache : Option (List Property)),
        a ≠ [] →
        (∀ p ∈ a, migrateTitle p = p) →
        (∀ p ∈ a, cleanImages sv store p = p) →
        (loadStep sv store (some a) localCache).collection = a ∧
        (loadStep sv store (some a) localCache).localAfter = a)
    ∧ (∀ (sv : Bool) (store : IdbStore) (l : List Property),
        (∀ p ∈ l, migrateTitle p = p) →
        (∀ p ∈ l, cleanImages sv store p = p) →
        (loadStep sv store none (some l)).collection = l ∧
        (loadStep sv store (some []) (some l)).collection = l)
    ∧ (∀ (sv : Bool) (store : IdbStore),
        (loadStep sv store none none).collection = []) := by
  refine ⟨fun sv store a lc ha h1 h2 => ?_, fun sv store l h1 h2 => ?_,
    fun sv store => rfl⟩
  · have hch : chosenData (some a) lc = a := by
      show (if a.length > 0 then a else lc.getD []) = a
      rw [if_pos (List.length_pos.mpr ha)]
    have hcoll : (loadStep sv store (some a) lc).collection = a := by
      rw [loadStep_collection, hch, map_self_of_mem h1, map_self_of_mem h2]
    exact ⟨hcoll, by rw [loadStep_localAfter, hcoll]⟩
  · have hch1 : chosenData none (some l) = l := rfl
    have hch2 : chosenData (some []) (some l) = l := rfl
    constructor
    · rw [loadStep_collection, hch1, map_self_of_mem h1, map_self_of_mem h2]
    · rw [loadStep_collection, hch2, map_self_of_mem h1, map_self_of_mem h2]

/-- C1 witness: a non-empty remote document wins over a different local
cache and is mirrored; an empty or missing remote document falls back to
the local cache; nothing anywhere yields the empty collection. -/
theorem load_source_of_truth_witness :
    (loadStep true [] (some [goodProp]) (some [sampleProp])).collection = [goodProp] ∧
    (loadStep true [] (some [goodProp]) (some [sampleProp])).localAfter = [goodProp] ∧
    (loadStep true [] (some []) (some [goodProp])).collection = [goodProp] ∧
    (loadStep true [] none none).collection = [] :=
  ⟨(load_source_of_truth.1 true [] [goodProp] (some [sampleProp])
      (by decide) (by decide) (by decide)).1,
   (load_source_of_truth.1 true [] [goodProp] (some [sampleProp])
      (by decide) (by decide) (by decide)).2,
   (load_source_of_truth.2.1 true [] [goodProp] (by decide) (by decide)).2,
   load_source_of_truth.2.2 true []⟩

/-- A browser-local reference is broken when the IndexedDB record for its
stripped key is gone. -/
def brokenLocalRef (store : IdbStore) (img : String) : Bool :=
  strStartsWith img "idb://" && (store.lookup (strDrop img 6)).isNone

/-- Removal of the broken browser-local references of one listing, the
rest kept in order. -/
def dropBrokenRefs (store : IdbStore) (p : Property) : Property :=
  { p with images := p.images.filter (fun img => !(brokenLocalRef store img)) }

/-- C5: when the loaded collection holds idb:// references whose backing
blobs no longer exist in IndexedDB, load returns the collection with
exactly those broken references removed from the affected listings (the
rest kept in order) and triggers exactly one remote re-save. Browser-local
keys are assumed to carry the idb- tag the store mints, and titles are
assumed off the legacy placeholder handled by the separate migration. -/
theorem self_healing (sv : Bool) (store : IdbStore) (a : List Property)
    (localCache : Option (List Property))
    (hwf : ∀ p ∈ a, ∀ img ∈ p.images, strStartsWith img "idb://" = true →
        strStartsWith (strDrop img 6) "idb-" = true)
    (htitle : ∀ p ∈ a, ¬ p.title = "דירה חדשה")
    (hbroken : ∃ p ∈ a, ∃ img ∈ p.images, brokenLocalRef store img = true) :
    (loadStep sv store (some a) localCache).collection = a.map (dropBrokenRefs store) ∧
    (loadStep sv store (some a) localCache).cloudResaves = 1 := by
  obtain ⟨p₀, hp₀, img₀, himg₀, hb₀⟩ := hbroken
  have ha : a ≠ [] := by
    intro h
    rw [h] at hp₀
    cases hp₀
  have hch : chosenData (some a) localCache = a := by
    show (if a.length > 0 then a else localCache.getD []) = a
    rw [if_pos (List.length_pos.mpr ha)]
  have hmt : ∀ p ∈ a, migrateTitle p = p := fun p hp => migrateTitle_eq_self (htitle p hp)
  have hkeep : ∀ p ∈ a, ∀ img ∈ p.images,
      keepRef sv store img = !(brokenLocalRef store img) := by
    intro p hp img himg
    unfold keepRef brokenLocalRef
    cases hidb : strStartsWith img "idb://" with
    | false => simp
    | true =>
      have hk := hwf p hp img himg hidb
      rw [getImageObjectURL_idb sv store _ hk]
      simp only [Bool.true_and]
      cases store.lookup (strDrop img 6) <;> simp
  have hclean : ∀ p ∈ a, cleanImages sv store p = dropBrokenRefs store p := by
    intro p hp
    unfold cleanImages dropBrokenRefs
    rw [List.filter_congr (fun img himg => hkeep p hp img himg)]
  constructor
  · rw [loadStep_collection, hch, map_self_of_mem hmt, map_congr_mem hclean]
  · rw [loadStep_resaves, hch, map_self_of_mem hmt]
    have ht : (a.any (fun p => p.title == "דירה חדשה")) = false := by
      rw [List.any_eq_false]
      intro p hp
      simp [htitle p hp]
    have hi : (a.any (fun p => p.images.any (fun img =>
        strStartsWith img "idb://" &&
          (getImageObjectURL sv store (strDrop img 6)).isNone))) = true := by
      rw [List.any_eq_true]
      refine ⟨p₀, hp₀, ?_⟩
      rw [List.any_eq_true]
      refine ⟨img₀, himg₀, ?_⟩
      unfold brokenLocalRef at hb₀
      have hidb : strStartsWith img₀ "idb://" = true := by
        cases h : strStartsWith img₀ "idb://"
        · rw [h] at hb₀
          simp at hb₀
        · rfl
      have hk := hwf p₀ hp₀ img₀ himg₀ hidb
      rw [getImageObjectURL_idb sv store _ hk]
      rw [hidb] at hb₀ ⊢
      simp only [Bool.true_and] at hb₀ ⊢
      cases hlk : store.lookup (strDrop img₀ 6)
      · simp
      · rw [hlk] at hb₀
        simp at hb₀
    rw [ht, hi]
    rfl

/-- C5 witness: a collection with one broken and one live browser-local
reference comes back with exactly the broken one dropped, order kept, and
one cloud re-save. -/
theorem self_healing_witness :
    (loadStep true [("idb-live", 7)] (some [brokenIdbProp]) none).collection =
      [{ brokenIdbProp with images := ["k1.png", "idb://idb-live"] }] ∧
    (loadStep true [("idb-live", 7)] (some [brokenIdbProp]) none).cloudResaves = 1 := by
  have h := self_healing true [("idb-live", 7)] [brokenIdbProp] none
    (by decide) (by decide) (by decide)
  exact ⟨by rw [h.1]; decide, h.2⟩

/-- C2 counterexample: the round trip is not the identity even with the
remote store reachable throughout and no reference-resolution side effects
in sight: a listing titled with the legacy placeholder comes back from the
second load with its title migrated to the empty string. -/
theorem round_trip_counterexample :
    (∀ p ∈ [badTitleProp], cleanImages true [] p = p) ∧
    roundTrip true [] ⟨none, none⟩ [badTitleProp] ≠ [badTitleProp] := by
  exact ⟨by decide, by decide⟩

/-- C2 amended: for every collection C, with the remote store reachable
throughout, load-save-load returns C provided the reconciliation pass
leaves C unchanged (the stated exclusion of reference-resolution side
effects) and additionally no listing carries the legacy placeholder title
that load migrates. -/
theorem round_trip_amended (sv : Bool) (store : IdbStore) (st0 : SyncState)
    (C : List Property)
    (htitle : ∀ p ∈ C, ¬ p.title = "דירה חדשה")
    (hclean : ∀ p ∈ C, cleanImages sv store p = p) :
    roundTrip sv store st0 C = C := by
  have hst2 : ∀ st1 : SyncState,
      (savePropertiesRun ⟨false, false, true⟩ st1 C).1 = ⟨some C, some C⟩ :=
    fun st1 => rfl
  have hmt : ∀ p ∈ C, migrateTitle p = p := fun p hp => migrateTitle_eq_self (htitle p hp)
  have hch : chosenData (some C) (some C) = C := by
    show (if C.length > 0 then C else (some C).getD []) = C
    split
    · rfl
    · rfl
  show (loadRun sv store
    (savePropertiesRun ⟨false, false, true⟩ ((loadRun sv store st0).2) C).1).1 = C
  rw [hst2]
  show (loadStep sv store (some C) (some C)).collection = C
  rw [loadStep_collection, hch, map_self_of_mem hmt, map_self_of_mem hclean]

/-- C2 amended witness: a concrete round trip from an empty initial state
returns the saved collection unchanged. -/
theorem round_trip_amended_witness :
    roundTrip true [] ⟨none, none⟩ [goodProp] = [goodProp] :=
  round_trip_amended true [] ⟨none, none⟩ [goodProp] (by decide) (by decide)

end ApartmentSpec
